import Mathlib

/-!
Shallow embedding of the submission analytics engine of the FYP-WEB-TOOL
repository.

The embedded code lives in
`src/client/src/components/results-analytics.tsx` (the `analytics` `useMemo`
and the helper functions `getLetterGrade`, `getMedian`, `getPercentile`,
`getStandardDeviation`) and in
`src/client/src/components/overall-results-modal.tsx` (the duplicated
`scores` / `average` computation and its own identical `getLetterGrade`).

Modelling conventions:
* JavaScript numbers are embedded as `ℚ` (the analytics code performs exact
  ratios, sums and comparisons over small inputs; float imprecision is not
  what any claim is about).  `Math.sqrt` is the one real-valued operation and
  is embedded as `Real.sqrt`, so the standard deviation is factored into its
  own (real-valued) definition.
* `Math.round(x)` is `⌊x + 1/2⌋` (JS rounds halves toward positive
  infinity).
* Division by zero yields `0` in `ℚ` whereas JS yields `Infinity`/`NaN`;
  every statement made below about inputs with `maxScore = 0` depends only
  on the control flow of the code (which never branches on the quotient),
  never on the value of such a quotient.
* `Array.prototype.sort` is required by the ECMAScript standard to be
  stable; it is embedded as `List.mergeSort`, which is stable, with the
  boolean comparator derived from the JS comparison function.
* Fields of the source records that no embedded computation reads
  (`email`, `feedback`, `criteriaScores`) are omitted.
-/

namespace FypWebTool

/-- JS `Math.round` on a rational: rounds half toward positive infinity. -/
def jsRound (x : ℚ) : ℤ := ⌊x + 1/2⌋

/-- `Math.round(x * 10) / 10`: rounding to one decimal place. -/
def round1 (x : ℚ) : ℚ := (jsRound (x * 10) : ℚ) / 10

/-- JS `Math.round` on a real (used after `Math.sqrt`). -/
noncomputable def jsRoundR (x : ℝ) : ℤ := ⌊x + 1/2⌋

/-- `Math.round(x * 10) / 10` on a real. -/
noncomputable def round1R (x : ℝ) : ℝ := (jsRoundR (x * 10) : ℝ) / 10

/-- The `grade` object carried by a graded submission. -/
structure Grade where
  totalScore : ℚ
  maxScore : ℚ
  deriving Repr, DecidableEq

/-- The `student` object of a submission. -/
structure Student where
  name : String
  deriving Repr, DecidableEq

/-- A submission record as consumed by both analytics surfaces. -/
structure Submission where
  id : String
  student : Student
  isGraded : Bool
  grade : Option Grade
  deriving Repr, DecidableEq

/-- One element of the `scores` array built by `results-analytics.tsx`. -/
structure ScoreRecord where
  studentName : String
  score : ℚ
  maxScore : ℚ
  percentage : ℚ
  grade : String
  deriving Repr, DecidableEq

/-- `getLetterGrade` of `results-analytics.tsx` (the copy in
`overall-results-modal.tsx` is textually identical). -/
def getLetterGrade (percentage : ℚ) : String :=
  if percentage ≥ 90 then "A"
  else if percentage ≥ 80 then "B"
  else if percentage ≥ 70 then "C"
  else if percentage ≥ 60 then "D"
  else "F"

/-- `getMedian` of `results-analytics.tsx`.  The out-of-bounds access the JS
code would make on an empty array is modelled by `getD`'s default; the
function is only ever called on nonempty arrays. -/
def getMedian (numbers : List ℚ) : ℚ :=
  let sorted := numbers.mergeSort fun a b => decide (a ≤ b)
  let mid := sorted.length / 2
  if sorted.length % 2 = 0 then (sorted.getD (mid - 1) 0 + sorted.getD mid 0) / 2
  else sorted.getD mid 0

/-- `getPercentile` of `results-analytics.tsx`. -/
def getPercentile (numbers : List ℚ) (percentile : ℚ) : ℚ :=
  let sorted := numbers.mergeSort fun a b => decide (a ≤ b)
  let index := percentile / 100 * ((sorted.length : ℚ) - 1)
  let lower := ⌊index⌋
  let upper := ⌈index⌉
  if lower = upper then sorted.getD lower.toNat 0
  else
    let weight := index - (lower : ℚ)
    sorted.getD lower.toNat 0 * (1 - weight) + sorted.getD upper.toNat 0 * weight

/-- The variance accumulated inside `getStandardDeviation` (the value handed
to `Math.sqrt`). -/
def variance (numbers : List ℚ) (mean : ℚ) : ℚ :=
  (numbers.foldl (fun sum num => sum + (num - mean) ^ 2) 0) / (numbers.length : ℚ)

/-- `getStandardDeviation` of `results-analytics.tsx`: `Math.sqrt` of the
variance, real-valued. -/
noncomputable def getStandardDeviation (numbers : List ℚ) (mean : ℚ) : ℝ :=
  Real.sqrt (variance numbers mean)

/-- `submissions.filter(s => s.isGraded && s.grade)`. -/
def gradedSubmissions (submissions : List Submission) : List Submission :=
  submissions.filter fun s => s.isGraded && s.grade.isSome

/-- The element the `gradedSubmissions.map` of `results-analytics.tsx` builds
for one submission: percentage rounded to one decimal, letter grade computed
from the unrounded percentage. -/
def mkScore (s : Submission) : ScoreRecord :=
  let g := s.grade.getD ⟨0, 0⟩
  let percentage := g.totalScore / g.maxScore * 100
  { studentName := s.student.name
    score := g.totalScore
    maxScore := g.maxScore
    percentage := round1 percentage
    grade := getLetterGrade percentage }

/-- The comparator `(a, b) => b.percentage - a.percentage` of the JS stable
sort, as the boolean relation under which `a` may precede `b`. -/
def scoreLE (a b : ScoreRecord) : Bool := decide (b.percentage ≤ a.percentage)

/-- The `scores` array after `scores.sort(...)`: descending by (rounded)
percentage, ties in encounter order. -/
def sortedScores (submissions : List Submission) : List ScoreRecord :=
  ((gradedSubmissions submissions).map mkScore).mergeSort scoreLE

/-- The `percentages` array of `results-analytics.tsx`. -/
def percentagesOf (submissions : List Submission) : List ℚ :=
  (sortedScores submissions).map (·.percentage)

/-- `percentages.reduce((a, b) => a + b, 0) / percentages.length`. -/
def averageOf (submissions : List Submission) : ℚ :=
  let percentages := percentagesOf submissions
  percentages.foldl (· + ·) 0 / (percentages.length : ℚ)

/-- `Math.min(...numbers)`; the empty case (JS `Infinity`) is unreachable in
the guarded callers and modelled as `0`. -/
def jsMin : List ℚ → ℚ
  | [] => 0
  | x :: xs => xs.foldl min x

/-- `Math.max(...numbers)`; the empty case (JS `-Infinity`) is unreachable in
the guarded callers and modelled as `0`. -/
def jsMax : List ℚ → ℚ
  | [] => 0
  | x :: xs => xs.foldl max x

/-- The local `q1` of the `analytics` memo. -/
def q1Of (submissions : List Submission) : ℚ :=
  getPercentile (percentagesOf submissions) 25

/-- The local `q3` of the `analytics` memo. -/
def q3Of (submissions : List Submission) : ℚ :=
  getPercentile (percentagesOf submissions) 75

/-- The local `iqr` of the `analytics` memo. -/
def iqrOf (submissions : List Submission) : ℚ :=
  q3Of submissions - q1Of submissions

/-- The predicate of the `outliers` filter. -/
def isOutlier (submissions : List Submission) (s : ScoreRecord) : Bool :=
  decide (s.percentage < q1Of submissions - 1.5 * iqrOf submissions) ||
  decide (s.percentage > q3Of submissions + 1.5 * iqrOf submissions)

/-- The `outliers` array of the `analytics` memo. -/
def outliersOf (submissions : List Submission) : List ScoreRecord :=
  (sortedScores submissions).filter (isOutlier submissions)

/-- `s.percentage >= 90` (bucket `'A (90-100%)'`). -/
def inBucketA (s : ScoreRecord) : Bool := decide (s.percentage ≥ 90)

/-- `s.percentage >= 80 && s.percentage < 90` (bucket `'B (80-89%)'`). -/
def inBucketB (s : ScoreRecord) : Bool :=
  decide (s.percentage ≥ 80) && decide (s.percentage < 90)

/-- `s.percentage >= 70 && s.percentage < 80` (bucket `'C (70-79%)'`). -/
def inBucketC (s : ScoreRecord) : Bool :=
  decide (s.percentage ≥ 70) && decide (s.percentage < 80)

/-- `s.percentage >= 60 && s.percentage < 70` (bucket `'D (60-69%)'`). -/
def inBucketD (s : ScoreRecord) : Bool :=
  decide (s.percentage ≥ 60) && decide (s.percentage < 70)

/-- `s.percentage < 60` (bucket `'F (0-59%)'`). -/
def inBucketF (s : ScoreRecord) : Bool := decide (s.percentage < 60)

/-- The `gradeDistribution` object: one count per letter-grade key. -/
structure GradeDistribution where
  a : ℕ
  b : ℕ
  c : ℕ
  d : ℕ
  f : ℕ
  deriving Repr, DecidableEq, Inhabited

/-- The `gradeDistribution` of the `analytics` memo. -/
def gradeDistributionOf (submissions : List Submission) : GradeDistribution :=
  let scores := sortedScores submissions
  { a := (scores.filter inBucketA).length
    b := (scores.filter inBucketB).length
    c := (scores.filter inBucketC).length
    d := (scores.filter inBucketD).length
    f := (scores.filter inBucketF).length }

/-- One element of the `ranges` histogram. -/
structure RangeBucket where
  range : String
  count : ℕ
  percentage : ℤ
  deriving Repr, DecidableEq

/-- The `ranges` histogram: for `i = 0..9`, bucket `[10i, 10i+10)` (note the
strict `<` also on the last bucket, exactly as the source has it). -/
def rangesOf (submissions : List Submission) : List RangeBucket :=
  let scores := sortedScores submissions
  (List.range 10).map fun i =>
    let start : ℚ := (i : ℚ) * 10
    let stop : ℚ := start + 10
    let count :=
      (scores.filter fun s => decide (s.percentage ≥ start) && decide (s.percentage < stop)).length
    { range := toString (i * 10) ++ "-" ++ toString (i * 10 + 10) ++ "%"
      count := count
      percentage := jsRound ((count : ℚ) / (scores.length : ℚ) * 100) }

/-- The object returned by the `analytics` memo.  Its `stdDev` field is the
one real-valued entry (it goes through `Math.sqrt`) and is therefore factored
into the separate definition `analyticsStdDev` below; all other fields are
here. -/
structure Report where
  scores : List ScoreRecord
  average : ℚ
  median : ℚ
  min : ℚ
  max : ℚ
  outliers : List ScoreRecord
  gradeDistribution : GradeDistribution
  ranges : List RangeBucket
  totalGraded : ℕ
  totalSubmissions : ℕ
  deriving Repr, DecidableEq, Inhabited

/-- The `analytics` `useMemo` of `results-analytics.tsx`: `null` when no
submission is graded, otherwise the full report. -/
def analytics (submissions : List Submission) : Option Report :=
  if (gradedSubmissions submissions).length = 0 then none
  else some
    { scores := sortedScores submissions
      average := round1 (averageOf submissions)
      median := round1 (getMedian (percentagesOf submissions))
      min := round1 (jsMin (percentagesOf submissions))
      max := round1 (jsMax (percentagesOf submissions))
      outliers := outliersOf submissions
      gradeDistribution := gradeDistributionOf submissions
      ranges := rangesOf submissions
      totalGraded := (gradedSubmissions submissions).length
      totalSubmissions := submissions.length }

/-- The `stdDev` field of the report returned by the `analytics` memo:
`Math.round(getStandardDeviation(percentages, average) * 10) / 10`. -/
noncomputable def analyticsStdDev (submissions : List Submission) : ℝ :=
  round1R (getStandardDeviation (percentagesOf submissions) (averageOf submissions))

/-! ### overall-results-modal.tsx -/

/-- One element of the `scores` array of `overall-results-modal.tsx`: the
percentage is rounded to the nearest integer. -/
structure ModalScore where
  studentName : String
  score : ℚ
  maxScore : ℚ
  percentage : ℤ
  deriving Repr, DecidableEq

/-- The element the modal's `gradedSubmissions.map` builds. -/
def mkModalScore (s : Submission) : ModalScore :=
  let g := s.grade.getD ⟨0, 0⟩
  { studentName := s.student.name
    score := g.totalScore
    maxScore := g.maxScore
    percentage := jsRound (g.totalScore / g.maxScore * 100) }

/-- The modal's sort comparator `(a, b) => b.percentage - a.percentage`. -/
def modalScoreLE (a b : ModalScore) : Bool := decide (b.percentage ≤ a.percentage)

/-- The modal's `scores` array after sorting. -/
def modalScores (submissions : List Submission) : List ModalScore :=
  ((gradedSubmissions submissions).map mkModalScore).mergeSort modalScoreLE

/-- The modal's `average`:
`Math.round(percentages.reduce((a, b) => a + b, 0) / percentages.length)`. -/
def modalAverage (submissions : List Submission) : ℤ :=
  let percentages := (modalScores submissions).map (·.percentage)
  jsRound (((percentages.foldl (· + ·) 0 : ℤ) : ℚ) / (percentages.length : ℚ))

/-- The letter grade the modal's CSV export attaches to a row:
`getLetterGrade(s.percentage)` applied to the integer-rounded percentage
(the modal's own `getLetterGrade` is textually identical to the one in
`results-analytics.tsx`). -/
def modalLetterGrade (s : ModalScore) : String :=
  getLetterGrade (s.percentage : ℚ)

/-! ### Spec-side definition for the refinement claim about percentiles -/

/-- The percentile formula exactly as the spec words it: over the ascending
sort, `index = p/100·(n−1)`; if `index` is integral, return that order
statistic, otherwise linearly interpolate between the floor and ceil order
statistics weighted by the fractional part of `index`. -/
def percentileSpec (numbers : List ℚ) (p : ℚ) : ℚ :=
  let sorted := numbers.mergeSort fun a b => decide (a ≤ b)
  let index := p / 100 * ((sorted.length : ℚ) - 1)
  if index = (⌊index⌋ : ℚ) then sorted.getD (⌊index⌋).toNat 0
  else
    sorted.getD (⌊index⌋).toNat 0 * (1 - Int.fract index) +
      sorted.getD (⌈index⌉).toNat 0 * Int.fract index

/-! ### Concrete inputs used by counterexamples and witnesses -/

/-- A graded submission with the given id, student name, score and max. -/
def gradedSub (i nm : String) (ts ms : ℚ) : Submission :=
  { id := i, student := { name := nm }, isGraded := true
    grade := some { totalScore := ts, maxScore := ms } }

/-- An ungraded submission. -/
def ungradedSub (i nm : String) : Submission :=
  { id := i, student := { name := nm }, isGraded := false, grade := none }

/-- A batch holding a valid record and a record with `maxScore = 0`. -/
def badBatch : List Submission :=
  [gradedSub "good" "alice" 80 100, gradedSub "bad" "bob" 5 0]

/-- A single graded submission with a percentage of exactly 100. -/
def perfectBatch : List Submission :=
  [gradedSub "1" "carol" 100 100]

/-- Five graded submissions with percentages `[10, 10, 10, 10, 95]`
(Example 3 of the spec). -/
def exampleFive : List Submission :=
  [gradedSub "1" "s1" 10 100, gradedSub "2" "s2" 10 100,
   gradedSub "3" "s3" 10 100, gradedSub "4" "s4" 10 100,
   gradedSub "5" "s95" 95 100]

/-- A single graded submission whose raw percentage is 89.95 (rounds to 90.0
at one decimal but letter-grades as B from the unrounded value). -/
def roundingBatch : List Submission :=
  [gradedSub "1" "dana" 1799 2000]

/-- A single graded submission whose raw percentage is 89.5 (integer-rounds
to 90, one-decimal-rounds to 89.5). -/
def halfBatch : List Submission :=
  [gradedSub "1" "evan" 179 200]

/-- A single graded submission used by single-element witnesses. -/
def singleBatch : List Submission :=
  [gradedSub "1" "fred" 80 100]

/-! ### Helper lemmas shared by several claims -/

/-- The `analytics` memo returns `null` exactly when no submission passed the
`isGraded && grade` filter. -/
theorem analytics_none_iff (subs : List Submission) :
    analytics subs = none ↔ gradedSubmissions subs = [] := by
  unfold analytics
  split
  · simp_all [List.length_eq_zero]
  · simp_all [List.length_eq_zero]

/-- Shape of the report when `analytics` returns one. -/
theorem analytics_some_eq {subs : List Submission} {r : Report}
    (h : analytics subs = some r) :
    r = { scores := sortedScores subs
          average := round1 (averageOf subs)
          median := round1 (getMedian (percentagesOf subs))
          min := round1 (jsMin (percentagesOf subs))
          max := round1 (jsMax (percentagesOf subs))
          outliers := outliersOf subs
          gradeDistribution := gradeDistributionOf subs
          ranges := rangesOf subs
          totalGraded := (gradedSubmissions subs).length
          totalSubmissions := subs.length } := by
  unfold analytics at h
  split at h
  · exact absurd h (by simp)
  · exact (Option.some.inj h).symm

/-- `Math.round` of an integer is that integer. -/
theorem jsRound_intCast (k : ℤ) : jsRound (k : ℚ) = k := by
  unfold jsRound
  rw [add_comm, Int.floor_add_int]
  have h : ⌊(1:ℚ)/2⌋ = 0 := by
    apply Int.floor_eq_zero_iff.mpr
    constructor <;> norm_num
  rw [h, zero_add]

/-- Rounding to one decimal place is idempotent. -/
theorem round1_idem (x : ℚ) : round1 (round1 x) = round1 x := by
  unfold round1
  rw [div_mul_cancel₀ _ (by norm_num : (10:ℚ) ≠ 0), jsRound_intCast]

/-- `getPercentile` on a one-element array returns that element, whatever the
percentile: the interpolation index is `p/100 · (1 − 1) = 0`. -/
theorem getPercentile_singleton (x pct : ℚ) : getPercentile [x] pct = x := by
  simp [getPercentile]

/-- `Math.round(0 * 10) / 10 = 0` over the reals. -/
theorem round1R_zero : round1R 0 = 0 := by
  unfold round1R jsRoundR
  have h : ⌊(0:ℝ) * 10 + 1/2⌋ = 0 := by
    rw [zero_mul, zero_add]
    apply Int.floor_eq_zero_iff.mpr
    constructor <;> norm_num
  rw [h]
  norm_num

/-! ### Claims -/

/-- C1 counterexample: `badBatch` contains a participating record with
`maxScore = 0`, yet the engine does not reject the batch — it returns a
report.  (This depends only on the control flow: the code branches only on
the number of graded records, never on any `maxScore`.) -/
theorem c1_counterexample : (analytics badBatch).isSome = true := rfl

/-- C1 amended: the engine performs no `maxScore` validation at all.  For
every input with at least one participating record — including any records
with `maxScore ≤ 0` — it returns a full report in which every participating
record takes part (in JS the malformed record's percentage evaluates to
`Infinity` or `NaN`; no rejection or error path exists). -/
theorem c1_no_validation (subs : List Submission)
    (h : gradedSubmissions subs ≠ []) :
    ∃ r, analytics subs = some r ∧
      r.scores.length = (gradedSubmissions subs).length := by
  have hne : ¬(gradedSubmissions subs).length = 0 := by
    simpa [List.length_eq_zero] using h
  unfold analytics
  rw [if_neg hne]
  exact ⟨_, rfl, by simp [sortedScores]⟩

/-- C1 witness: the amended claim at the concrete malformed batch. -/
theorem c1_no_validation_witness :
    ∃ r, analytics badBatch = some r ∧
      r.scores.length = (gradedSubmissions badBatch).length :=
  c1_no_validation badBatch (by with_unfolding_all decide)

/-- C2: at a single graded submission with percentage exactly 100, the
`ranges` histogram counts the record in no bucket (the last bucket also uses
`percentage < 100`), so the bucket counts sum to 0 while `totalGraded` is 1 —
the code drops the perfect score, contradicting the claimed invariant
`sum(ranges[i].count) == totalGraded`. -/
theorem c2_perfect_score_dropped :
    (analytics perfectBatch).map
      (fun r => ((r.ranges.map (·.count)).sum, r.totalGraded)) = some (0, 1) := by
  with_unfolding_all rfl

/-- C4: the engine reports "no data" (absence, `null`) exactly when zero
submissions are graded; no zero-filled report is produced. -/
theorem c4_no_data_absent (subs : List Submission) :
    analytics subs = none ↔ gradedSubmissions subs = [] :=
  analytics_none_iff subs

/-- C9: with a raw percentage of 89.95 (1799/2000), the record's
`letterGrade` is computed from the unrounded value (`"B"`), while the grade
distribution buckets classify the one-decimal-rounded value 90.0, so the
record lands in the `'A (90-100%)'` bucket even though no record bears the
letter grade `"A"`. -/
theorem c9_letter_grade_bucket_mismatch :
    (analytics roundingBatch).map
      (fun r => (r.scores.map (·.grade), r.gradeDistribution.a,
        (r.scores.filter fun rec => rec.grade == "A").length)) =
      some (["B"], 1, 0) := by with_unfolding_all rfl

/-- C10: the two duplicated computations disagree.  For a raw percentage of
89.5, the modal reports the integer-rounded percentage 90 with letter grade
`"A"` and an integer-rounded class average of 90, while results-analytics
reports the one-decimal percentage 89.5 with letter grade `"B"` and a class
average of 89.5. -/
theorem c10_surfaces_disagree :
    (modalScores halfBatch).map (fun s => (s.percentage, modalLetterGrade s)) =
      [(90, "A")] ∧
    (analytics halfBatch).map (fun r => r.scores.map fun s => (s.percentage, s.grade)) =
      some [(179/2, "B")] ∧
    modalAverage halfBatch = 90 ∧
    (analytics halfBatch).map (·.average) = some (179/2) := by
  refine ⟨by with_unfolding_all rfl, by with_unfolding_all rfl, by with_unfolding_all rfl,
    by with_unfolding_all rfl⟩

/-- C7: for every nonempty list and percentile in {25, 75}, `getPercentile`
computes exactly the formula the spec states: `index = p/100·(n−1)` over the
ascending sort; if the index is integral, that order statistic; otherwise the
linear interpolation of the floor and ceil order statistics weighted by the
fractional part of the index. -/
theorem c7_percentile_formula (numbers : List ℚ) (p : ℚ)
    (hne : numbers ≠ []) (hp : p = 25 ∨ p = 75) :
    getPercentile numbers p = percentileSpec numbers p := by
  simp only [getPercentile, percentileSpec]
  set sorted := numbers.mergeSort fun a b => decide (a ≤ b) with hs
  set index := p / 100 * ((sorted.length : ℚ) - 1) with hi
  have hiff : (⌊index⌋ = ⌈index⌉) ↔ index = (⌊index⌋ : ℚ) := by
    constructor
    · intro h
      have h1 := Int.floor_le index
      have h2 := Int.le_ceil index
      rw [← h] at h2
      exact le_antisymm h2 h1
    · intro h
      rw [h, Int.floor_intCast, Int.ceil_intCast]
  by_cases hc : ⌊index⌋ = ⌈index⌉
  · rw [if_pos hc, if_pos (hiff.mp hc)]
  · rw [if_neg hc, if_neg fun hh => hc (hiff.mpr hh)]
    rw [← Int.self_sub_floor]

/-- C7 witness: the formula coincidence at a concrete nonempty list and
percentile (the interpolating branch: index = 0.5). -/
theorem c7_percentile_formula_witness :
    getPercentile [10, 20, 30] 25 = percentileSpec [10, 20, 30] 25 :=
  c7_percentile_formula [10, 20, 30] 25 (by simp) (Or.inl rfl)

/-- C6: a batch whose graded set is the single submission `s` yields a report
whose standard deviation is 0, whose average, median, min, max, q1 and q3 all
equal that submission's (rounded) percentage, and whose outlier list is
empty. -/
theorem c6_single_element (subs : List Submission) (s : Submission) (r : Report)
    (hg : gradedSubmissions subs = [s]) (h : analytics subs = some r) :
    analyticsStdDev subs = 0 ∧
    r.average = (mkScore s).percentage ∧
    r.median = (mkScore s).percentage ∧
    r.min = (mkScore s).percentage ∧
    r.max = (mkScore s).percentage ∧
    q1Of subs = (mkScore s).percentage ∧
    q3Of subs = (mkScore s).percentage ∧
    r.outliers = [] := by
  have hr := analytics_some_eq h
  subst hr
  have hs1 : sortedScores subs = [mkScore s] := by
    rw [sortedScores, hg]
    simp
  have hp1 : percentagesOf subs = [(mkScore s).percentage] := by
    rw [percentagesOf, hs1]
    simp
  have hidem : round1 (mkScore s).percentage = (mkScore s).percentage := round1_idem _
  have havg : averageOf subs = (mkScore s).percentage := by
    rw [averageOf, hp1]
    simp
  have hq1 : q1Of subs = (mkScore s).percentage := by
    rw [q1Of, hp1, getPercentile_singleton]
  have hq3 : q3Of subs = (mkScore s).percentage := by
    rw [q3Of, hp1, getPercentile_singleton]
  have hiqr : iqrOf subs = 0 := by
    rw [iqrOf, hq1, hq3, sub_self]
  refine ⟨?_, ?_, ?_, ?_, ?_, hq1, hq3, ?_⟩
  · rw [analyticsStdDev, getStandardDeviation, hp1, havg]
    have hvar : variance [(mkScore s).percentage] (mkScore s).percentage = 0 := by
      simp [variance]
    rw [hvar, Rat.cast_zero, Real.sqrt_zero, round1R_zero]
  · show round1 (averageOf subs) = (mkScore s).percentage
    rw [havg, hidem]
  · show round1 (getMedian (percentagesOf subs)) = (mkScore s).percentage
    rw [hp1]
    have hmed : getMedian [(mkScore s).percentage] = (mkScore s).percentage := by
      simp [getMedian]
    rw [hmed, hidem]
  · show round1 (jsMin (percentagesOf subs)) = (mkScore s).percentage
    rw [hp1]
    have : jsMin [(mkScore s).percentage] = (mkScore s).percentage := rfl
    rw [this, hidem]
  · show round1 (jsMax (percentagesOf subs)) = (mkScore s).percentage
    rw [hp1]
    have : jsMax [(mkScore s).percentage] = (mkScore s).percentage := rfl
    rw [this, hidem]
  · show outliersOf subs = []
    rw [outliersOf, hs1]
    simp [isOutlier, hq1, hq3, hiqr]

/-- C6 witness: the single-element batch `singleBatch`. -/
theorem c6_single_element_witness :
    analyticsStdDev singleBatch = 0 ∧
    ((analytics singleBatch).getD default).average =
      (mkScore (gradedSub "1" "fred" 80 100)).percentage ∧
    ((analytics singleBatch).getD default).median =
      (mkScore (gradedSub "1" "fred" 80 100)).percentage ∧
    ((analytics singleBatch).getD default).min =
      (mkScore (gradedSub "1" "fred" 80 100)).percentage ∧
    ((analytics singleBatch).getD default).max =
      (mkScore (gradedSub "1" "fred" 80 100)).percentage ∧
    q1Of singleBatch = (mkScore (gradedSub "1" "fred" 80 100)).percentage ∧
    q3Of singleBatch = (mkScore (gradedSub "1" "fred" 80 100)).percentage ∧
    ((analytics singleBatch).getD default).outliers = [] :=
  c6_single_element singleBatch (gradedSub "1" "fred" 80 100)
    ((analytics singleBatch).getD default)
    (by with_unfolding_all rfl) (by with_unfolding_all rfl)

/-- The JS sort comparator is transitive. -/
theorem scoreLE_trans : ∀ a b c : ScoreRecord, scoreLE a b → scoreLE b c → scoreLE a c := by
  intro a b c h1 h2
  simp only [scoreLE, decide_eq_true_eq] at *
  exact le_trans h2 h1

/-- The JS sort comparator is total. -/
theorem scoreLE_total : ∀ a b : ScoreRecord, scoreLE a b || scoreLE b a := by
  intro a b
  simp only [scoreLE, Bool.or_eq_true, decide_eq_true_eq]
  exact le_total b.percentage a.percentage

/-- Stability of `mergeSort` in filter form: the elements satisfying a
predicate under which the comparator always holds (e.g. "percentage equals a
fixed value") appear in the output in exactly their input order. -/
theorem filter_mergeSort_eq {α : Type} (le : α → α → Bool)
    (htrans : ∀ a b c, le a b → le b c → le a c)
    (htotal : ∀ a b, le a b || le b a)
    (p : α → Bool) (hp : ∀ a b, p a → p b → le a b) (l : List α) :
    (l.mergeSort le).filter p = l.filter p := by
  have hpw : (l.filter p).Pairwise (le · ·) :=
    List.pairwise_of_forall_mem_list fun a ha b hb =>
      hp a b (List.of_mem_filter ha) (List.of_mem_filter hb)
  have h1 : List.Sublist (l.filter p) (l.mergeSort le) :=
    List.sublist_mergeSort htrans htotal hpw (List.filter_sublist l)
  have h2 : List.Sublist (l.filter p) ((l.mergeSort le).filter p) := by
    have h3 := h1.filter p
    rwa [List.filter_eq_self.mpr fun a ha => List.of_mem_filter ha] at h3
  have hlen : ((l.mergeSort le).filter p).length = (l.filter p).length :=
    ((List.mergeSort_perm l le).filter p).length_eq
  exact (h2.eq_of_length hlen.symm).symm

/-- C3: in every report, each ranked record's percentage is
`round(score/maxScore·100, 1 decimal)`, the list is sorted descending by
percentage, and records with equal percentage keep their encounter order (the
filter at each percentage value equals the same filter over the unsorted
mapped input). -/
theorem c3_ranked_list (subs : List Submission) (r : Report)
    (h : analytics subs = some r) :
    (∀ rec ∈ r.scores, rec.percentage = round1 (rec.score / rec.maxScore * 100)) ∧
    r.scores.Pairwise (fun a b => b.percentage ≤ a.percentage) ∧
    ∀ p : ℚ, r.scores.filter (fun rec => decide (rec.percentage = p)) =
      ((gradedSubmissions subs).map mkScore).filter fun rec => decide (rec.percentage = p) := by
  have hr : r.scores = sortedScores subs := by rw [analytics_some_eq h]
  refine ⟨?_, ?_, ?_⟩
  · intro rec hrec
    rw [hr] at hrec
    have hmem : rec ∈ (gradedSubmissions subs).map mkScore := by
      simpa [sortedScores] using hrec
    obtain ⟨s, _, rfl⟩ := List.mem_map.mp hmem
    rfl
  · rw [hr, sortedScores]
    have hs := List.sorted_mergeSort scoreLE_trans scoreLE_total
      ((gradedSubmissions subs).map mkScore)
    exact hs.imp fun hab => by simpa [scoreLE, decide_eq_true_eq] using hab
  · intro p
    rw [hr, sortedScores]
    exact filter_mergeSort_eq scoreLE scoreLE_trans scoreLE_total _
      (fun a b ha hb => by
        simp only [decide_eq_true_eq] at ha hb
        simp [scoreLE, ha, hb]) _

/-- C3 witness: the ranked-list properties at the concrete batch
`exampleFive`. -/
theorem c3_ranked_list_witness :
    (∀ rec ∈ ((analytics exampleFive).getD default).scores,
      rec.percentage = round1 (rec.score / rec.maxScore * 100)) ∧
    ((analytics exampleFive).getD default).scores.Pairwise
      (fun a b => b.percentage ≤ a.percentage) ∧
    ∀ p : ℚ, ((analytics exampleFive).getD default).scores.filter
        (fun rec => decide (rec.percentage = p)) =
      ((gradedSubmissions exampleFive).map mkScore).filter
        fun rec => decide (rec.percentage = p) :=
  c3_ranked_list exampleFive ((analytics exampleFive).getD default)
    (by with_unfolding_all rfl)

/-- C5: a record is in `outliers` exactly when its percentage is strictly
below `q1 − 1.5·IQR` or strictly above `q3 + 1.5·IQR`; moreover at the
concrete percentages `[10, 10, 10, 10, 95]` (where `q1 = q3 = 10` and
`IQR = 0`, with no division anywhere in the bound computation) the sole
outlier is the record with 95. -/
theorem c5_outliers (subs : List Submission) (r : Report)
    (h : analytics subs = some r) :
    (∀ rec, rec ∈ r.outliers ↔ rec ∈ r.scores ∧
      (rec.percentage < q1Of subs - 1.5 * iqrOf subs ∨
        rec.percentage > q3Of subs + 1.5 * iqrOf subs)) ∧
    (outliersOf exampleFive).map (·.studentName) = ["s95"] := by
  constructor
  · intro rec
    have hro : r.outliers = outliersOf subs := by rw [analytics_some_eq h]
    have hrs : r.scores = sortedScores subs := by rw [analytics_some_eq h]
    rw [hro, hrs, outliersOf, List.mem_filter]
    simp [isOutlier]
  · with_unfolding_all rfl

/-- C5 witness: the outlier characterisation at the concrete batch
`exampleFive`. -/
theorem c5_outliers_witness :
    (∀ rec, rec ∈ ((analytics exampleFive).getD default).outliers ↔
      rec ∈ ((analytics exampleFive).getD default).scores ∧
      (rec.percentage < q1Of exampleFive - 1.5 * iqrOf exampleFive ∨
        rec.percentage > q3Of exampleFive + 1.5 * iqrOf exampleFive)) ∧
    (outliersOf exampleFive).map (·.studentName) = ["s95"] :=
  c5_outliers exampleFive ((analytics exampleFive).getD default)
    (by with_unfolding_all rfl)

/-- Every score record satisfies exactly one of the five grade-bucket
predicates, each in the disjunct naming its bucket. -/
theorem buckets_split (s : ScoreRecord) :
    (inBucketA s = true ∧ inBucketB s = false ∧ inBucketC s = false ∧
      inBucketD s = false ∧ inBucketF s = false) ∨
    (inBucketA s = false ∧ inBucketB s = true ∧ inBucketC s = false ∧
      inBucketD s = false ∧ inBucketF s = false) ∨
    (inBucketA s = false ∧ inBucketB s = false ∧ inBucketC s = true ∧
      inBucketD s = false ∧ inBucketF s = false) ∨
    (inBucketA s = false ∧ inBucketB s = false ∧ inBucketC s = false ∧
      inBucketD s = true ∧ inBucketF s = false) ∨
    (inBucketA s = false ∧ inBucketB s = false ∧ inBucketC s = false ∧
      inBucketD s = false ∧ inBucketF s = true) := by
  simp only [inBucketA, inBucketB, inBucketC, inBucketD, inBucketF]
  rcases le_or_lt 90 s.percentage with h1 | h1
  · have n2 : ¬s.percentage < 90 := not_lt.mpr h1
    have n3 : ¬s.percentage < 80 := by linarith
    have n4 : ¬s.percentage < 70 := by linarith
    have n5 : ¬s.percentage < 60 := by linarith
    simp [h1, n2, n3, n4, n5]
  rcases le_or_lt 80 s.percentage with h2 | h2
  · have n1 : ¬(90:ℚ) ≤ s.percentage := not_le.mpr h1
    have n4 : ¬s.percentage < 70 := by linarith
    have n5 : ¬s.percentage < 60 := by linarith
    simp [h1, h2, n1, n4, n5]
  rcases le_or_lt 70 s.percentage with h3 | h3
  · have n1 : ¬(90:ℚ) ≤ s.percentage := by linarith
    have n2 : ¬(80:ℚ) ≤ s.percentage := not_le.mpr h2
    have n5 : ¬s.percentage < 60 := by linarith
    simp [h2, h3, n1, n2, n5]
  rcases le_or_lt 60 s.percentage with h4 | h4
  · have n1 : ¬(90:ℚ) ≤ s.percentage := by linarith
    have n2 : ¬(80:ℚ) ≤ s.percentage := by linarith
    have n3 : ¬(70:ℚ) ≤ s.percentage := not_le.mpr h3
    simp [h3, h4, n1, n2, n3]
  · have n1 : ¬(90:ℚ) ≤ s.percentage := by linarith
    have n2 : ¬(80:ℚ) ≤ s.percentage := by linarith
    have n3 : ¬(70:ℚ) ≤ s.percentage := by linarith
    have n4 : ¬(60:ℚ) ≤ s.percentage := not_le.mpr h4
    simp [h4, n1, n2, n3, n4]

/-- Every score record lands in exactly one grade bucket. -/
theorem buckets_exactly_one (rec : ScoreRecord) :
    [inBucketA rec, inBucketB rec, inBucketC rec, inBucketD rec,
      inBucketF rec].count true = 1 := by
  rcases buckets_split rec with
    ⟨h1, h2, h3, h4, h5⟩ | ⟨h1, h2, h3, h4, h5⟩ | ⟨h1, h2, h3, h4, h5⟩ |
    ⟨h1, h2, h3, h4, h5⟩ | ⟨h1, h2, h3, h4, h5⟩ <;>
  simp [h1, h2, h3, h4, h5]

/-- The five grade-bucket filters partition any list of score records. -/
theorem filter_buckets_length (l : List ScoreRecord) :
    (l.filter inBucketA).length + (l.filter inBucketB).length +
      (l.filter inBucketC).length + (l.filter inBucketD).length +
      (l.filter inBucketF).length = l.length := by
  induction l with
  | nil => rfl
  | cons x xs ih =>
    simp only [List.filter_cons]
    rcases buckets_split x with
      ⟨h1, h2, h3, h4, h5⟩ | ⟨h1, h2, h3, h4, h5⟩ | ⟨h1, h2, h3, h4, h5⟩ |
      ⟨h1, h2, h3, h4, h5⟩ | ⟨h1, h2, h3, h4, h5⟩ <;>
    simp [h1, h2, h3, h4, h5] <;> omega

/-- C8: the five `gradeDistribution` counts always sum to `totalGraded`, and
every ranked record satisfies exactly one bucket predicate. -/
theorem c8_grade_distribution_partition (subs : List Submission) (r : Report)
    (h : analytics subs = some r) :
    r.gradeDistribution.a + r.gradeDistribution.b + r.gradeDistribution.c +
      r.gradeDistribution.d + r.gradeDistribution.f = r.totalGraded ∧
    ∀ rec ∈ r.scores,
      [inBucketA rec, inBucketB rec, inBucketC rec, inBucketD rec,
        inBucketF rec].count true = 1 := by
  have hr := analytics_some_eq h
  subst hr
  constructor
  · show (gradeDistributionOf subs).a + (gradeDistributionOf subs).b +
      (gradeDistributionOf subs).c + (gradeDistributionOf subs).d +
      (gradeDistributionOf subs).f = (gradedSubmissions subs).length
    simp only [gradeDistributionOf]
    rw [filter_buckets_length]
    simp [sortedScores]
  · intro rec _
    exact buckets_exactly_one rec

/-- C8 witness: the partition property at the concrete batch `exampleFive`. -/
theorem c8_grade_distribution_partition_witness :
    ((analytics exampleFive).getD default).gradeDistribution.a +
      ((analytics exampleFive).getD default).gradeDistribution.b +
      ((analytics exampleFive).getD default).gradeDistribution.c +
      ((analytics exampleFive).getD default).gradeDistribution.d +
      ((analytics exampleFive).getD default).gradeDistribution.f =
      ((analytics exampleFive).getD default).totalGraded ∧
    ∀ rec ∈ ((analytics exampleFive).getD default).scores,
      [inBucketA rec, inBucketB rec, inBucketC rec, inBucketD rec,
        inBucketF rec].count true = 1 :=
  c8_grade_distribution_partition exampleFive
    ((analytics exampleFive).getD default) (by with_unfolding_all rfl)

end FypWebTool
